import Mathlib

/-!
Shallow embedding of `src/syno_fan_control.py` (Synology DS920+ fan controller).

Temperatures and timestamps are Python floats in the source; they are modelled
as rationals (`ℚ`).  External effects (HTTP calls, the clock, sysfs files) are
modelled as explicit oracle inputs: each API call is represented by a record of
its observable outcome (whether the request raised, the `success` flag, and the
data fields the code reads), and each `time.time()` call site receives its own
timestamp value.
-/

namespace Syno

/-! ## Configuration constants (lines 26-42 of the source) -/

def TEMP_QUIET_MAX : ℚ := 40

def TEMP_COOL_MAX : ℚ := 55

def QUIET_MODE : String := "quietfan"

def COOL_MODE : String := "coolfan"

def FULL_MODE : String := "fullfan"

def FORCE_REFRESH_INTERVAL : ℚ := 300

def MIN_MODE_CHANGE_INTERVAL : ℚ := 60

/-! ## Mode classifier: `FanController.determine_mode` (lines 208-215) -/

def determine_mode (temp : ℚ) : String :=
  if temp < TEMP_QUIET_MAX then QUIET_MODE
  else if temp < TEMP_COOL_MAX then COOL_MODE
  else FULL_MODE

/-- C1: the mode classifier is a pure total function of the temperature:
below 40 it returns Quiet, in [40, 55) it returns Cool, at or above 55 it
returns Full; the boundary values 40 and 55 classify to Cool and Full. -/
theorem determine_mode_classifies (t : ℚ) :
    (t < 40 → determine_mode t = QUIET_MODE) ∧
    (40 ≤ t → t < 55 → determine_mode t = COOL_MODE) ∧
    (55 ≤ t → determine_mode t = FULL_MODE) ∧
    determine_mode 40 = COOL_MODE ∧
    determine_mode 55 = FULL_MODE := by
  unfold determine_mode TEMP_QUIET_MAX TEMP_COOL_MAX
  refine ⟨?_, ?_, ?_, ?_, ?_⟩
  · intro h; rw [if_pos h]
  · intro h1 h2; rw [if_neg (by linarith), if_pos h2]
  · intro h; rw [if_neg (by linarith), if_neg (by linarith)]
  · norm_num
  · norm_num

/-- Witness for C1 at the concrete temperatures 30, 45 and 60. -/
theorem determine_mode_classifies_holds :
    (30 : ℚ) < 40 ∧ determine_mode 30 = QUIET_MODE ∧
    (40 : ℚ) ≤ 45 ∧ (45 : ℚ) < 55 ∧ determine_mode 45 = COOL_MODE ∧
    (55 : ℚ) ≤ 60 ∧ determine_mode 60 = FULL_MODE :=
  ⟨by norm_num, (determine_mode_classifies 30).1 (by norm_num),
   by norm_num, by norm_num,
   (determine_mode_classifies 45).2.1 (by norm_num) (by norm_num),
   by norm_num, (determine_mode_classifies 60).2.2.1 (by norm_num)⟩

/-! ## Temperature resolver: `FanController.get_temperature` (lines 84-143)

Each HTTP stage is modelled by the observable outcome of its request:
`raises` is true when the request, `raise_for_status` or JSON decoding raised
(the stage's `except` clause swallows it), `success` is the response's
`success` flag, and the remaining fields are the numeric data fields the code
reads (`none` when the key is absent or null). -/

structure ThermalResp where
  raises : Bool
  success : Bool
  cpu_temp : Option ℚ
  system_temp : Option ℚ
deriving DecidableEq, Repr

structure SysinfoResp where
  raises : Bool
  success : Bool
  temp : Option ℚ
deriving DecidableEq, Repr

/-- Python `x or y` on an optional numeric value (line 106): both `None` and
the number `0` are falsy, so they yield the right operand. -/
def pyOr (a b : Option ℚ) : Option ℚ :=
  match a with
  | some v => if v = 0 then b else some v
  | none => b

/-- Stage 1 (lines 89-110): the `SYNO.Core.Hardware.Thermal` query.  Yields
`some` reading exactly when the code's `return` on line 108 executes. -/
def thermalStage (r : ThermalResp) : Option (ℚ × String) :=
  if r.raises then none
  else if r.success then
    match pyOr r.cpu_temp r.system_temp with
    | some t => some (t, "SYNO.Core.Hardware.Thermal")
    | none => none
  else none

/-- Stage 2 (lines 112-131): the `SYNO.Core.System` info query. -/
def sysinfoStage (r : SysinfoResp) : Option (ℚ × String) :=
  if r.raises then none
  else if r.success then
    match r.temp with
    | some t => some (t, "SYNO.Core.System")
    | none => none
  else none

/-- Stage 3 (lines 133-141): the sysfs scan.  A candidate file is a path
paired with `some n` (its content parsed to the integer `n` millidegrees) or
`none` (opening/reading/parsing raised).  The `try` wraps the whole `for`
loop, so an exception aborts the entire scan. -/
def sysfsScan : List (String × Option ℤ) → Option (ℚ × String)
  | [] => none
  | (_, none) :: _ => none
  | (p, some n) :: rest =>
    let temp : ℚ := (n : ℚ) / 1000
    if 10 < temp ∧ temp < 110 then some (temp, "sysfs:" ++ p)
    else sysfsScan rest

def NO_SOURCE_MSG : String := "No temperature source available"

/-- `FanController.get_temperature`: returns `(temperature, source)` or
`(none, error message)` (line 143). -/
def get_temperature (th : ThermalResp) (si : SysinfoResp)
    (files : List (String × Option ℤ)) : Option ℚ × String :=
  match thermalStage th with
  | some r => (some r.1, r.2)
  | none =>
    match sysinfoStage si with
    | some r => (some r.1, r.2)
    | none =>
      match sysfsScan files with
      | some r => (some r.1, r.2)
      | none => (none, NO_SOURCE_MSG)

/-- C5: the resolver tries its three sources in fixed priority order and
short-circuits on the first success; out-of-range sysfs values are skipped
and the scan continues; when every stage fails it reports no source. -/
theorem get_temperature_fallback_order :
    (∀ th si files t src, thermalStage th = some (t, src) →
      get_temperature th si files = (some t, src)) ∧
    (∀ th si files t src, thermalStage th = none →
      sysinfoStage si = some (t, src) →
      get_temperature th si files = (some t, src)) ∧
    (∀ th si files t src, thermalStage th = none → sysinfoStage si = none →
      sysfsScan files = some (t, src) →
      get_temperature th si files = (some t, src)) ∧
    (∀ (p : String) (n : ℤ) (rest : List (String × Option ℤ)),
      ((n : ℚ) / 1000 ≤ 10 ∨ 110 ≤ (n : ℚ) / 1000) →
      sysfsScan ((p, some n) :: rest) = sysfsScan rest) ∧
    (∀ th si files, thermalStage th = none → sysinfoStage si = none →
      sysfsScan files = none →
      get_temperature th si files = (none, NO_SOURCE_MSG)) := by
  refine ⟨?_, ?_, ?_, ?_, ?_⟩
  · intro th si files t src h; simp [get_temperature, h]
  · intro th si files t src h1 h2; simp [get_temperature, h1, h2]
  · intro th si files t src h1 h2 h3; simp [get_temperature, h1, h2, h3]
  · intro p n rest h
    have hnot : ¬ (10 < (n : ℚ) / 1000 ∧ (n : ℚ) / 1000 < 110) := by
      rcases h with h | h
      · exact fun hc => absurd hc.1 (not_lt.mpr h)
      · exact fun hc => absurd hc.2 (not_lt.mpr h)
    simp [sysfsScan, hnot]
  · intro th si files h1 h2 h3; simp [get_temperature, h1, h2, h3]

/-- Witness for C5: a concrete run through each conjunct. -/
theorem get_temperature_fallback_order_holds :
    thermalStage ⟨false, true, some 47, none⟩ =
      some (47, "SYNO.Core.Hardware.Thermal") ∧
    get_temperature ⟨false, true, some 47, none⟩ ⟨true, false, none⟩ [] =
      (some 47, "SYNO.Core.Hardware.Thermal") ∧
    ((5000 : ℚ) / 1000 ≤ 10 ∨ (110 : ℚ) ≤ 5000 / 1000) ∧
    sysfsScan [("hwmon0", some 5000), ("hwmon1", some 45000)] =
      sysfsScan [("hwmon1", some 45000)] ∧
    thermalStage ⟨true, false, none, none⟩ = none ∧
    sysinfoStage ⟨false, false, none⟩ = none ∧
    sysfsScan [] = none ∧
    get_temperature ⟨true, false, none, none⟩ ⟨false, false, none⟩ [] =
      (none, NO_SOURCE_MSG) :=
  ⟨by decide, get_temperature_fallback_order.1 _ ⟨true, false, none⟩ [] 47 _
      (by decide),
   by norm_num,
   get_temperature_fallback_order.2.2.2.1 "hwmon0" 5000 [("hwmon1", some 45000)]
      (by norm_num),
   by decide, by decide, by decide,
   get_temperature_fallback_order.2.2.2.2 ⟨true, false, none, none⟩
      ⟨false, false, none⟩ [] (by decide) (by decide) (by decide)⟩

/-- C6 counterexample: a successful primary response with `cpu_temp`
present and equal to the number 0 and no `system_temp`.  The claim says the
resolver returns 0 with the primary provenance; the code's Python `or` on
line 106 treats the value 0 as absent, so the primary stage yields nothing
and the resolver falls through (here to no-source-available). -/
theorem thermal_zero_cpu_temp_not_returned :
    (ThermalResp.mk false true (some 0) none).success = true ∧
    (ThermalResp.mk false true (some 0) none).cpu_temp = some 0 ∧
    get_temperature ⟨false, true, some 0, none⟩ ⟨true, false, none⟩ [] ≠
      (some 0, "SYNO.Core.Hardware.Thermal") := by
  refine ⟨rfl, rfl, ?_⟩
  decide

/-- C6 amended: for a successful primary response, `cpu_temp` is returned
with the primary provenance only when it is present and nonzero; when
`cpu_temp` is absent or 0, `system_temp` is returned instead when present
(any numeric value, including 0).  A `cpu_temp` of 0 is treated as absent by
the Python `or` idiom. -/
theorem thermal_success_returns_value (th : ThermalResp)
    (si : SysinfoResp) (files : List (String × Option ℤ))
    (hr : th.raises = false) (hs : th.success = true) :
    (∀ c : ℚ, th.cpu_temp = some c → c ≠ 0 →
      get_temperature th si files = (some c, "SYNO.Core.Hardware.Thermal")) ∧
    (∀ v : ℚ, (th.cpu_temp = none ∨ th.cpu_temp = some 0) →
      th.system_temp = some v →
      get_temperature th si files = (some v, "SYNO.Core.Hardware.Thermal")) := by
  constructor
  · intro c hc hne
    have hstage : thermalStage th = some (c, "SYNO.Core.Hardware.Thermal") := by
      simp [thermalStage, hr, hs, pyOr, hc, hne]
    simp [get_temperature, hstage]
  · intro v hcpu hsys
    have hstage : thermalStage th = some (v, "SYNO.Core.Hardware.Thermal") := by
      rcases hcpu with h | h <;> simp [thermalStage, hr, hs, pyOr, h, hsys]
    simp [get_temperature, hstage]

/-- Witness for the amended C6: a nonzero `cpu_temp` of 52 is returned, and
with `cpu_temp` 0 a `system_temp` of 48 is returned. -/
theorem thermal_success_returns_value_holds :
    get_temperature ⟨false, true, some 52, none⟩ ⟨true, false, none⟩ [] =
      (some 52, "SYNO.Core.Hardware.Thermal") ∧
    get_temperature ⟨false, true, some 0, some 48⟩ ⟨true, false, none⟩ [] =
      (some 48, "SYNO.Core.Hardware.Thermal") :=
  ⟨(thermal_success_returns_value ⟨false, true, some 52, none⟩
      ⟨true, false, none⟩ [] rfl rfl).1 52 rfl (by norm_num),
   (thermal_success_returns_value ⟨false, true, some 0, some 48⟩
      ⟨true, false, none⟩ [] rfl rfl).2 48 (Or.inr rfl) rfl⟩

/-- C10: in the sysfs scan, a candidate file whose read or parse raises
aborts the whole stage (the `try` wraps the `for` loop), so the resolver
reports no source available no matter what the remaining candidates hold;
only values that read successfully but fall outside (10, 110) let the scan
continue. -/
theorem sysfsScan_aborts_on_exception (p : String)
    (rest : List (String × Option ℤ)) (th : ThermalResp) (si : SysinfoResp)
    (h1 : thermalStage th = none) (h2 : sysinfoStage si = none) :
    sysfsScan ((p, none) :: rest) = none ∧
    get_temperature th si ((p, none) :: rest) = (none, NO_SOURCE_MSG) ∧
    (∀ (q : String) (n : ℤ), ¬ (10 < (n : ℚ) / 1000 ∧ (n : ℚ) / 1000 < 110) →
      sysfsScan ((q, some n) :: rest) = sysfsScan rest) := by
  refine ⟨rfl, ?_, ?_⟩
  · simp [get_temperature, h1, h2, sysfsScan]
  · intro q n h; simp [sysfsScan, h]

/-- Witness for C10: the aborted scan skips a later in-range candidate
(45000 millidegrees, i.e. 45°C) that the scan alone would have accepted. -/
theorem sysfsScan_aborts_on_exception_holds :
    thermalStage ⟨true, false, none, none⟩ = none ∧
    sysinfoStage ⟨true, false, none⟩ = none ∧
    sysfsScan [("hwmon1", some 45000)] = some (45, "sysfs:hwmon1") ∧
    sysfsScan [("hwmon0", none), ("hwmon1", some 45000)] = none ∧
    get_temperature ⟨true, false, none, none⟩ ⟨true, false, none⟩
      [("hwmon0", none), ("hwmon1", some 45000)] = (none, NO_SOURCE_MSG) :=
  ⟨by decide, by decide, by simp [sysfsScan]; norm_num,
   (sysfsScan_aborts_on_exception "hwmon0" [("hwmon1", some 45000)]
      ⟨true, false, none, none⟩ ⟨true, false, none⟩ (by decide) (by decide)).1,
   (sysfsScan_aborts_on_exception "hwmon0" [("hwmon1", some 45000)]
      ⟨true, false, none, none⟩ ⟨true, false, none⟩ (by decide) (by decide)).2.1⟩

/-! ## Controller state and persistence (lines 50-55, 217-234)

The in-memory `self.state` dict holds the four keys initialised on lines
50-55: `last_mode` (string or None), `last_change` (a Unix timestamp),
`last_temp` (number or None), `temp_source` (string or None). -/

structure State where
  last_mode : Option String
  last_change : ℚ
  last_temp : Option ℚ
  temp_source : Option String
deriving DecidableEq, Repr

/-- The initial in-memory state (lines 50-55). -/
def initState : State := ⟨none, 0, none, none⟩

/-- JSON values of the shapes `json.dump` produces for the state fields. -/
inductive JVal
  | null
  | num (q : ℚ)
  | str (s : String)
deriving DecidableEq, Repr

def encOptStr : Option String → JVal
  | none => JVal.null
  | some m => JVal.str m

def encOptNum : Option ℚ → JVal
  | none => JVal.null
  | some q => JVal.num q

/-- `FanController.save_state` (lines 226-234): `json.dump(self.state, f)`
serialises the four fields as a JSON object, modelled as a key-value list. -/
def save_state (s : State) : List (String × JVal) :=
  [("last_mode", encOptStr s.last_mode),
   ("last_change", JVal.num s.last_change),
   ("last_temp", encOptNum s.last_temp),
   ("temp_source", encOptStr s.temp_source)]

/-- One key-value pair applied to the state, as `dict.update` does on line
222: a known key with a value of the field's JSON shape replaces the field;
other pairs leave the four modelled fields untouched (Python would store
them in the dict, but no such key is ever read back). -/
def updateField (s : State) (kv : String × JVal) : State :=
  if kv.1 = "last_mode" then
    match kv.2 with
    | JVal.null => { s with last_mode := none }
    | JVal.str m => { s with last_mode := some m }
    | JVal.num _ => s
  else if kv.1 = "last_change" then
    match kv.2 with
    | JVal.num q => { s with last_change := q }
    | _ => s
  else if kv.1 = "last_temp" then
    match kv.2 with
    | JVal.null => { s with last_temp := none }
    | JVal.num q => { s with last_temp := some q }
    | _ => s
  else if kv.1 = "temp_source" then
    match kv.2 with
    | JVal.null => { s with temp_source := none }
    | JVal.str m => { s with temp_source := some m }
    | _ => s
  else s

/-- `FanController.load_state` (lines 217-224): `self.state.update(...)`
merges the file's pairs into the current state. -/
def load_state (init : State) (file : List (String × JVal)) : State :=
  file.foldl updateField init

/-- C7: state persistence round-trips — loading a saved state restores all
four fields exactly, whatever state the loader started from. -/
theorem load_after_save_roundtrip (init s : State) :
    load_state init (save_state s) = s := by
  obtain ⟨m, c, t, src⟩ := s
  cases m <;> cases t <;> cases src <;>
    simp [load_state, save_state, updateField, encOptStr, encOptNum]

/-! ## Governor and orchestrator: `set_fan_mode` (169-206) and `run` (236-283)

`set_fan_mode` reads the clock on line 172 (the throttle guard) and again on
line 198 (recording a successful change); `run` reads it on line 260.  Each
of those call sites receives its own oracle timestamp.  The outcome of the
fan-speed `set` request is a single boolean oracle: `true` exactly when the
request did not raise and the response's `success` flag was true (lines
186-196); both failure shapes print an error and return `False` without
touching the state. -/

/-- Outcome of one `set_fan_mode` call: whether the external request was
issued at all (line 187 reached), whether it reported success, and the
resulting state. -/
structure SetOutcome where
  attempted : Bool
  success : Bool
  state : State
deriving DecidableEq, Repr

/-- `FanController.set_fan_mode` (lines 169-206). -/
def set_fan_mode (tCheck tApply : ℚ) (applyOk : Bool) (mode : String)
    (s : State) : SetOutcome :=
  if tCheck - s.last_change < MIN_MODE_CHANGE_INTERVAL then
    ⟨false, false, s⟩
  else if applyOk then
    ⟨true, true, { s with last_mode := some mode, last_change := tApply }⟩
  else
    ⟨true, false, s⟩

/-- External inputs of one `run` invocation. -/
structure Env where
  login_ok : Bool
  thermal : ThermalResp
  sysinfo : SysinfoResp
  files : List (String × Option ℤ)
  apply_ok : Bool
  t_run : ℚ
  t_check : ℚ
  t_apply : ℚ
deriving DecidableEq, Repr

/-- Observable outcome of one `run` invocation: whether the external
mode-set request was issued, whether it succeeded (`mode_changed`), and the
state passed to `save_state` in the `finally` block (line 283). -/
structure RunResult where
  attempted : Bool
  applied : Bool
  state : State
deriving DecidableEq, Repr

/-- `FanController.run` (lines 236-283), given the loaded state `s0`.  A
login failure raises and is caught on line 280; an unavailable temperature
returns on line 248; both reach `finally` with the state unmodified. -/
def run (e : Env) (s0 : State) : RunResult :=
  if e.login_ok = false then ⟨false, false, s0⟩
  else
    match get_temperature e.thermal e.sysinfo e.files with
    | (none, _) => ⟨false, false, s0⟩
    | (some temp, source) =>
      let s1 : State := { s0 with last_temp := some temp,
                                  temp_source := some source }
      let desired := determine_mode temp
      if some desired ≠ s1.last_mode ∨
          e.t_run - s1.last_change > FORCE_REFRESH_INTERVAL then
        let o := set_fan_mode e.t_check e.t_apply e.apply_ok desired s1
        ⟨o.attempted, o.success, o.state⟩
      else
        ⟨false, false, s1⟩

/-- C2: in a run that reaches the governor (login succeeded, temperature
resolved to `t`), with a single clock value `now` for the two checks, the
external mode-set call is attempted iff at least 60s elapsed since the last
change AND (the desired mode differs from `last_mode` OR more than 300s
elapsed). -/
theorem run_attempts_apply_iff (s : State) (e : Env) (now t : ℚ) (src : String)
    (hlogin : e.login_ok = true)
    (htemp : get_temperature e.thermal e.sysinfo e.files = (some t, src))
    (hrun : e.t_run = now) (hcheck : e.t_check = now) :
    (run e s).attempted = true ↔
      (MIN_MODE_CHANGE_INTERVAL ≤ now - s.last_change ∧
        (some (determine_mode t) ≠ s.last_mode ∨
          now - s.last_change > FORCE_REFRESH_INTERVAL)) := by
  subst hrun
  by_cases hcond : some (determine_mode t) ≠ s.last_mode ∨
      e.t_run - s.last_change > FORCE_REFRESH_INTERVAL
  · by_cases hthr : e.t_run - s.last_change < MIN_MODE_CHANGE_INTERVAL
    · simp [run, hlogin, htemp, hcond, set_fan_mode, hcheck, hthr]
    · cases hap : e.apply_ok <;>
        simp [run, hlogin, htemp, hcond, set_fan_mode, hcheck, hthr, hap] <;>
        linarith
  · simp [run, hlogin, htemp, hcond]

/-- Witness for C2: fresh state (`last_change = 0`), temperature 62, clock
at 1000 — the call is attempted. -/
theorem run_attempts_apply_iff_holds :
    (run ⟨true, ⟨false, true, some 62, none⟩, ⟨true, false, none⟩, [],
        true, 1000, 1000, 1000⟩ initState).attempted = true ↔
      (MIN_MODE_CHANGE_INTERVAL ≤ (1000 : ℚ) - initState.last_change ∧
        (some (determine_mode 62) ≠ initState.last_mode ∨
          (1000 : ℚ) - initState.last_change > FORCE_REFRESH_INTERVAL)) :=
  run_attempts_apply_iff initState
    ⟨true, ⟨false, true, some 62, none⟩, ⟨true, false, none⟩, [],
      true, 1000, 1000, 1000⟩ 1000 62 "SYNO.Core.Hardware.Thermal"
    rfl (by decide) rfl rfl

/-- C4: in a run that reaches the governor, `last_mode` and `last_change`
are updated exactly when the external apply call reports success; on a
failed or suppressed apply they keep the values loaded at run start, while
the diagnostic fields are still set to the observed reading. -/
theorem state_updated_iff_apply_success (s : State) (e : Env) (t : ℚ)
    (src : String) (hlogin : e.login_ok = true)
    (htemp : get_temperature e.thermal e.sysinfo e.files = (some t, src)) :
    (run e s).state.last_temp = some t ∧
    (run e s).state.temp_source = some src ∧
    ((run e s).applied = true →
      (run e s).state.last_mode = some (determine_mode t) ∧
      (run e s).state.last_change = e.t_apply) ∧
    ((run e s).applied = false →
      (run e s).state.last_mode = s.last_mode ∧
      (run e s).state.last_change = s.last_change) := by
  by_cases hcond : some (determine_mode t) ≠ s.last_mode ∨
      e.t_run - s.last_change > FORCE_REFRESH_INTERVAL
  · by_cases hthr : e.t_check - s.last_change < MIN_MODE_CHANGE_INTERVAL
    · simp [run, hlogin, htemp, hcond, set_fan_mode, hthr]
    · cases hap : e.apply_ok <;>
        simp [run, hlogin, htemp, hcond, set_fan_mode, hthr, hap]
  · simp [run, hlogin, htemp, hcond]

/-- Witness for C4: a successful apply records mode `fullfan` and the apply
timestamp; with the apply failing, mode and change time stay at their loaded
values while the diagnostics are updated. -/
theorem state_updated_iff_apply_success_holds :
    (run ⟨true, ⟨false, true, some 62, none⟩, ⟨true, false, none⟩, [],
        true, 1000, 1000, 1001⟩ initState).state.last_temp = some 62 ∧
    (run ⟨true, ⟨false, true, some 62, none⟩, ⟨true, false, none⟩, [],
        true, 1000, 1000, 1001⟩ initState).applied = true ∧
    (run ⟨true, ⟨false, true, some 62, none⟩, ⟨true, false, none⟩, [],
        true, 1000, 1000, 1001⟩ initState).state.last_mode =
      some (determine_mode 62) ∧
    (run ⟨true, ⟨false, true, some 62, none⟩, ⟨true, false, none⟩, [],
        true, 1000, 1000, 1001⟩ initState).state.last_change = 1001 ∧
    (run ⟨true, ⟨false, true, some 62, none⟩, ⟨true, false, none⟩, [],
        false, 1000, 1000, 1001⟩ initState).state.last_mode =
      initState.last_mode ∧
    (run ⟨true, ⟨false, true, some 62, none⟩, ⟨true, false, none⟩, [],
        false, 1000, 1000, 1001⟩ initState).state.last_change =
      initState.last_change :=
  by
  have h1 := state_updated_iff_apply_success initState
    ⟨true, ⟨false, true, some 62, none⟩, ⟨true, false, none⟩, [],
      true, 1000, 1000, 1001⟩ 62 "SYNO.Core.Hardware.Thermal" rfl (by decide)
  have h2 := state_updated_iff_apply_success initState
    ⟨true, ⟨false, true, some 62, none⟩, ⟨true, false, none⟩, [],
      false, 1000, 1000, 1001⟩ 62 "SYNO.Core.Hardware.Thermal" rfl (by decide)
  have hap1 : (run ⟨true, ⟨false, true, some 62, none⟩, ⟨true, false, none⟩,
      [], true, 1000, 1000, 1001⟩ initState).applied = true := by
    norm_num [run, set_fan_mode, get_temperature, thermalStage, sysinfoStage,
      pyOr, determine_mode, initState, MIN_MODE_CHANGE_INTERVAL,
      FORCE_REFRESH_INTERVAL, TEMP_QUIET_MAX, TEMP_COOL_MAX]
  have hap2 : (run ⟨true, ⟨false, true, some 62, none⟩, ⟨true, false, none⟩,
      [], false, 1000, 1000, 1001⟩ initState).applied = false := by
    norm_num [run, set_fan_mode, get_temperature, thermalStage, sysinfoStage,
      pyOr, determine_mode, initState, MIN_MODE_CHANGE_INTERVAL,
      FORCE_REFRESH_INTERVAL, TEMP_QUIET_MAX, TEMP_COOL_MAX]
  exact ⟨h1.1, hap1, (h1.2.2.1 hap1).1, (h1.2.2.1 hap1).2,
    (h2.2.2.2 hap2).1, (h2.2.2.2 hap2).2⟩

/-- C8: the state handed to the final `save_state` on an authentication
failure, or when no temperature source is available, equals the state loaded
at run start — no field, diagnostics included, changes; `run` produces
exactly the one state that the `finally` block persists. -/
theorem run_error_paths_preserve_state (s : State) (e : Env) :
    (e.login_ok = false →
      run e s = ⟨false, false, s⟩ ∧
      save_state (run e s).state = save_state s) ∧
    ((get_temperature e.thermal e.sysinfo e.files).1 = none →
      (run e s).state = s ∧ (run e s).attempted = false ∧
      save_state (run e s).state = save_state s) := by
  constructor
  · intro h
    constructor
    · simp [run, h]
    · simp [run, h]
  · intro h
    rcases hgt : get_temperature e.thermal e.sysinfo e.files with ⟨o, msg⟩
    rw [hgt] at h
    simp only at h
    subst h
    cases hl : e.login_ok <;>
      refine ⟨?_, ?_, ?_⟩ <;> simp [run, hl, hgt]

/-- Witness for C8: a login failure leaves the loaded state untouched, and
so does a run where every temperature source fails. -/
theorem run_error_paths_preserve_state_holds :
    run ⟨false, ⟨false, true, some 62, none⟩, ⟨true, false, none⟩, [],
        true, 1000, 1000, 1000⟩ initState = ⟨false, false, initState⟩ ∧
    (run ⟨true, ⟨true, false, none, none⟩, ⟨true, false, none⟩, [],
        true, 1000, 1000, 1000⟩ initState).state = initState :=
  ⟨((run_error_paths_preserve_state initState
      ⟨false, ⟨false, true, some 62, none⟩, ⟨true, false, none⟩, [],
        true, 1000, 1000, 1000⟩).1 rfl).1,
   ((run_error_paths_preserve_state initState
      ⟨true, ⟨true, false, none, none⟩, ⟨true, false, none⟩, [],
        true, 1000, 1000, 1000⟩).2 (by decide)).1⟩

/-! ## Sequences of invocations

State is carried from one invocation to the next through the persisted
file; by the round-trip property the state loaded by the next run equals
the state saved by the previous one, so the sequence model threads the
final `RunResult.state` directly. -/

/-- Case analysis of one run's effect on `last_change`: either no change
was applied and `last_change` is untouched, or a change was applied, the
new `last_change` is the apply-time clock reading, and the guard ensured at
least `MIN_MODE_CHANGE_INTERVAL` elapsed at the check-time reading. -/
lemma run_last_change_cases (e : Env) (s : State) :
    ((run e s).applied = false ∧ (run e s).state.last_change = s.last_change) ∨
    ((run e s).applied = true ∧ (run e s).state.last_change = e.t_apply ∧
      s.last_change + MIN_MODE_CHANGE_INTERVAL ≤ e.t_check) := by
  cases hl : e.login_ok with
  | false => left; constructor <;> simp [run, hl]
  | true =>
    rcases hgt : get_temperature e.thermal e.sysinfo e.files with ⟨o, msg⟩
    cases o with
    | none => left; constructor <;> simp [run, hl, hgt]
    | some t =>
      by_cases hcond : some (determine_mode t) ≠ s.last_mode ∨
          e.t_run - s.last_change > FORCE_REFRESH_INTERVAL
      · by_cases hthr : e.t_check - s.last_change < MIN_MODE_CHANGE_INTERVAL
        · left; constructor <;>
            simp [run, hl, hgt, hcond, set_fan_mode, hthr]
        · cases hap : e.apply_ok with
          | false => left; constructor <;>
              simp [run, hl, hgt, hcond, set_fan_mode, hthr, hap]
          | true =>
            right
            have h60 : s.last_change + MIN_MODE_CHANGE_INTERVAL ≤ e.t_check := by
              have hle := not_lt.mp hthr
              linarith
            exact ⟨by simp [run, hl, hgt, hcond, set_fan_mode, hthr, hap],
              by simp [run, hl, hgt, hcond, set_fan_mode, hthr, hap], h60⟩
      · left; constructor <;> simp [run, hl, hgt, hcond]

/-- The clock readings at which a mode change was successfully applied, in
order, across a sequence of invocations threading the persisted state. -/
def applyTimes (s : State) : List Env → List ℚ
  | [] => []
  | e :: es =>
    (if (run e s).applied = true then [e.t_apply] else []) ++
      applyTimes (run e s).state es

lemma applyTimes_lower_bound (es : List Env) : ∀ s : State,
    (∀ e ∈ es, e.t_check ≤ e.t_apply) →
    ∀ x ∈ applyTimes s es, s.last_change + MIN_MODE_CHANGE_INTERVAL ≤ x := by
  have hMin : (0 : ℚ) ≤ MIN_MODE_CHANGE_INTERVAL := by
    norm_num [MIN_MODE_CHANGE_INTERVAL]
  induction es with
  | nil => intro s _ x hx; simp [applyTimes] at hx
  | cons e es ih =>
    intro s hc x hx
    have hce : e.t_check ≤ e.t_apply := hc e (by simp)
    have hcrest : ∀ e' ∈ es, e'.t_check ≤ e'.t_apply :=
      fun e' he' => hc e' (by simp [he'])
    rcases run_last_change_cases e s with ⟨hap, hch⟩ | ⟨hap, hch, h60⟩
    · simp only [applyTimes, hap] at hx
      simp only [Bool.false_eq_true, if_false, List.nil_append] at hx
      have hx' := ih (run e s).state hcrest x hx
      rw [hch] at hx'
      exact hx'
    · simp only [applyTimes, hap, if_true, List.singleton_append,
        List.mem_cons] at hx
      rcases hx with rfl | hx
      · linarith
      · have hx' := ih (run e s).state hcrest x hx
        rw [hch] at hx'
        linarith

/-- C3: across any sequence of invocations with any desired-mode inputs,
the clock readings of successfully applied changes are pairwise at least
`MIN_MODE_CHANGE_INTERVAL` apart (each invocation's apply-time clock reading
is taken at or after its check-time reading). -/
theorem no_two_applies_within_min_interval (s : State) (es : List Env)
    (hc : ∀ e ∈ es, e.t_check ≤ e.t_apply) :
    List.Pairwise (fun a b => a + MIN_MODE_CHANGE_INTERVAL ≤ b)
      (applyTimes s es) := by
  revert hc
  induction es generalizing s with
  | nil => intro _; simp [applyTimes]
  | cons e es ih =>
    intro hc
    have hcrest : ∀ e' ∈ es, e'.t_check ≤ e'.t_apply :=
      fun e' he' => hc e' (by simp [he'])
    rcases run_last_change_cases e s with ⟨hap, hch⟩ | ⟨hap, hch, h60⟩
    · simp only [applyTimes, hap, Bool.false_eq_true, if_false,
        List.nil_append]
      exact ih (run e s).state hcrest
    · simp only [applyTimes, hap, if_true, List.singleton_append]
      rw [List.pairwise_cons]
      refine ⟨?_, ih (run e s).state hcrest⟩
      intro b hb
      have hb' := applyTimes_lower_bound es (run e s).state hcrest b hb
      rw [hch] at hb'
      exact hb'

/-- Witness for C3: two invocations, both applying (at clock 1000 and
2000), starting from the fresh state. -/
theorem no_two_applies_within_min_interval_holds :
    (∀ e ∈ [(⟨true, ⟨false, true, some 62, none⟩, ⟨true, false, none⟩, [],
        true, 1000, 1000, 1000⟩ : Env),
      ⟨true, ⟨false, true, some 62, none⟩, ⟨true, false, none⟩, [],
        true, 2000, 2000, 2000⟩], e.t_check ≤ e.t_apply) ∧
    List.Pairwise (fun a b => a + MIN_MODE_CHANGE_INTERVAL ≤ b)
      (applyTimes initState
        [⟨true, ⟨false, true, some 62, none⟩, ⟨true, false, none⟩, [],
          true, 1000, 1000, 1000⟩,
         ⟨true, ⟨false, true, some 62, none⟩, ⟨true, false, none⟩, [],
          true, 2000, 2000, 2000⟩]) :=
  ⟨by decide,
   no_two_applies_within_min_interval initState
     [⟨true, ⟨false, true, some 62, none⟩, ⟨true, false, none⟩, [],
        true, 1000, 1000, 1000⟩,
      ⟨true, ⟨false, true, some 62, none⟩, ⟨true, false, none⟩, [],
        true, 2000, 2000, 2000⟩] (by decide)⟩

/-- The `last_change` values of the states handed to `save_state`, one per
invocation, threading the persisted state. -/
def savedChanges (s : State) : List Env → List ℚ
  | [] => []
  | e :: es => (run e s).state.last_change :: savedChanges (run e s).state es

lemma savedChanges_chain (es : List Env) : ∀ s : State,
    (∀ e ∈ es, e.t_check ≤ e.t_apply) →
    List.Chain' (fun a b => a ≤ b) (s.last_change :: savedChanges s es) := by
  induction es with
  | nil => intro s _; simp [savedChanges]
  | cons e es ih =>
    intro s hc
    have hce : e.t_check ≤ e.t_apply := hc e (by simp)
    have hcrest : ∀ e' ∈ es, e'.t_check ≤ e'.t_apply :=
      fun e' he' => hc e' (by simp [he'])
    rw [savedChanges, List.chain'_cons]
    constructor
    · rcases run_last_change_cases e s with ⟨_, hch⟩ | ⟨_, hch, h60⟩
      · rw [hch]
      · rw [hch]
        have hMin : (0 : ℚ) ≤ MIN_MODE_CHANGE_INTERVAL := by
          norm_num [MIN_MODE_CHANGE_INTERVAL]
        linarith
    · exact ih (run e s).state hcrest

/-- C9: across successful saves the persisted `last_change` is monotonically
non-decreasing (each invocation's apply-time clock reading is taken at or
after its check-time reading), and it advances only when a mode-set call
actually succeeds. -/
theorem last_change_monotone_across_saves (s : State) (es : List Env)
    (hc : ∀ e ∈ es, e.t_check ≤ e.t_apply) :
    List.Chain' (fun a b => a ≤ b) (s.last_change :: savedChanges s es) ∧
    ∀ (e' : Env) (s' : State), (run e' s').applied = false →
      (run e' s').state.last_change = s'.last_change := by
  refine ⟨savedChanges_chain es s hc, ?_⟩
  intro e' s' hap
  rcases run_last_change_cases e' s' with ⟨_, hch⟩ | ⟨hap', _, _⟩
  · exact hch
  · simp [hap'] at hap

/-- Witness for C9: the same two applying invocations as for C3, plus a
login-failure invocation that applies nothing and leaves `last_change`. -/
theorem last_change_monotone_across_saves_holds :
    (∀ e ∈ [(⟨true, ⟨false, true, some 62, none⟩, ⟨true, false, none⟩, [],
        true, 1000, 1000, 1000⟩ : Env),
      ⟨true, ⟨false, true, some 62, none⟩, ⟨true, false, none⟩, [],
        true, 2000, 2000, 2000⟩], e.t_check ≤ e.t_apply) ∧
    List.Chain' (fun a b => a ≤ b) (initState.last_change ::
      savedChanges initState
        [⟨true, ⟨false, true, some 62, none⟩, ⟨true, false, none⟩, [],
          true, 1000, 1000, 1000⟩,
         ⟨true, ⟨false, true, some 62, none⟩, ⟨true, false, none⟩, [],
          true, 2000, 2000, 2000⟩]) ∧
    (run ⟨false, ⟨false, true, some 62, none⟩, ⟨true, false, none⟩, [],
        true, 3000, 3000, 3000⟩ initState).applied = false ∧
    (run ⟨false, ⟨false, true, some 62, none⟩, ⟨true, false, none⟩, [],
        true, 3000, 3000, 3000⟩ initState).state.last_change =
      initState.last_change := by
  refine ⟨by decide, ?_, by simp [run], ?_⟩
  · exact (last_change_monotone_across_saves initState
      [⟨true, ⟨false, true, some 62, none⟩, ⟨true, false, none⟩, [],
          true, 1000, 1000, 1000⟩,
       ⟨true, ⟨false, true, some 62, none⟩, ⟨true, false, none⟩, [],
          true, 2000, 2000, 2000⟩] (by decide)).1
  · exact (last_change_monotone_across_saves initState [] (by simp)).2
      ⟨false, ⟨false, true, some 62, none⟩, ⟨true, false, none⟩, [],
        true, 3000, 3000, 3000⟩ initState (by simp [run])

end Syno
